import Mathlib

/-!
# Verification of the company-scraper scoring/classification core

Shallow embedding of the deterministic scoring layer of the repository:
the acquisition-attractiveness scorer (`calculateInvestmentScore`), the
MSP likelihood classifier (`analyzeMSPLikelihood`), the thesis criteria
matcher (`matchesThesisCriteria`) and the multi-year trend calculator
(`calculateTrends`).

Modelling conventions:
* JavaScript numbers are embedded as `ℚ` (exact rationals); `Math.round`
  is `jsRound` (floor of `x + 1/2`, which is JS round-half-up semantics).
* A JS value that may be `undefined`/`null` is an `Option`; JS truthiness
  of a numeric field (`if (x)`) is `truthy`, which maps `0` to `none`.
* `yearsActive` is `(Date.now() − incorporationDate) / MILLISECONDS_PER_YEAR`;
  since the embedding is clock-free, the derived rational is carried on the
  record directly.
* Strings are Lean `String`s; `toLowerCase` is ASCII `Char.toLower`,
  `String.prototype.includes` is `substrB`.
* `Math.pow(r, 1/3)` is irrational in general; the embedding keeps the
  ratio that is its argument (`CagrVal`), together with the IEEE fact that
  `pow` of a negative base with non-integer exponent is NaN.
-/

/-- JS `Math.round`: round half toward positive infinity
(`Rat.floor` keeps the definition kernel-computable). -/
def jsRound (x : ℚ) : ℤ := (x + 1/2).floor

/-- `Math.round(x * 100) / 100` — round to 2 decimal places. -/
def round2 (x : ℚ) : ℚ := (jsRound (x * 100) : ℚ) / 100

/-- `Math.round(x * 10) / 10` — round to 1 decimal place. -/
def round1 (x : ℚ) : ℚ := (jsRound (x * 10) : ℚ) / 10

/-- JS truthiness of an optional numeric value: `0`, `null` and
`undefined` are falsy. -/
def truthy (o : Option ℚ) : Option ℚ :=
  match o with
  | some x => if x = 0 then none else some x
  | none => none

/-- ASCII `toLowerCase` (written over the character list so that the
kernel can evaluate it). -/
def lowerStr (s : String) : String := String.mk (s.toList.map Char.toLower)

/-- JS `hay.includes(pat)`: `pat` occurs as a contiguous substring. -/
def substrB (pat hay : String) : Bool :=
  hay.toList.tails.any (fun t => pat.toList.isPrefixOf t)

/-! ## Data model (`CompanySchema`, trimmed to the fields the scoring
layer reads; all numeric fields are optional per the zod schema). -/

structure Financials where
  revenue : Option ℚ
  profit : Option ℚ
  ebitda : Option ℚ
  employees : Option ℚ
  deriving Repr, DecidableEq

structure Enrichment where
  headcount : Option ℚ
  tech_stack : List String
  business_keywords : List String
  services : List String
  business_description : String
  deriving Repr, DecidableEq

structure Company where
  company_name : String
  company_status : String
  /-- `(Date.now() − date_of_incorporation) / MILLISECONDS_PER_YEAR`,
  the value `calculateYearsActive` produces for this record. -/
  yearsActive : ℚ
  has_insolvency_history : Bool
  has_been_liquidated : Bool
  sic_codes : List String
  financials : Financials
  enrichment : Enrichment
  /-- `investment_score?.location_distance_km`, `none` when unset. -/
  location_distance_km : Option ℚ
  deriving Repr, DecidableEq

/-! ## Shared constants (`scorecard.ts`) -/

def MIN_EBITDA : ℚ := 500000
def MAX_EBITDA : ℚ := 1000000
def MIN_REVENUE : ℚ := 3000000
def MAX_REVENUE : ℚ := 6000000
def MIN_EMPLOYEES : ℚ := 15
def MAX_EMPLOYEES : ℚ := 40
def TARGET_SIC_CODES : List String := ["62020", "62090"]

/-! ## Size/Age/Location scorer (`calculateInvestmentScore`) -/

/-- Factor 1: `Math.min(25, yearsActive * 8.33)`. -/
def ageScore (yearsActive : ℚ) : ℚ := min 25 (yearsActive * (833/100))

/-- `company.financials.employees || company.enrichment.headcount`
(truthy-chained). -/
def headcountOf (c : Company) : Option ℚ :=
  match truthy c.financials.employees with
  | some h => some h
  | none => truthy c.enrichment.headcount

/-- The value when the optional metric is truthy and inside the
inclusive band, else `none`. -/
def fullBand (o : Option ℚ) (lo hi : ℚ) : Option ℚ :=
  match truthy o with
  | some x => if lo ≤ x ∧ x ≤ hi then some x else none
  | none => none

/-- The mutable triple `(sizeScore, sizeValue, sizeType)` of the size
factor. -/
structure SizeRes where
  score : ℚ
  value : ℚ
  stype : String
  deriving Repr, DecidableEq

/-- The `if (headcount)` block of the partial-credit cascade: sets the
triple when the truthy headcount is below or above the band, otherwise
leaves the initial `(0, 0, 'none')`. -/
def sizeStep1 (hOpt : Option ℚ) : SizeRes :=
  match hOpt with
  | some h =>
      if h < MIN_EMPLOYEES then ⟨max 0 (h / MIN_EMPLOYEES * 15), h, "employees"⟩
      else if h > MAX_EMPLOYEES then
        ⟨max 0 (15 - (h - MAX_EMPLOYEES) / MAX_EMPLOYEES * 15), h, "employees"⟩
      else ⟨0, 0, "none"⟩
  | none => ⟨0, 0, "none"⟩

/-- The `if (sizeScore === 0 && company.financials.revenue)` block. -/
def sizeStep2 (st : SizeRes) (rOpt : Option ℚ) : SizeRes :=
  if st.score = 0 then
    match rOpt with
    | some r =>
        if r < MIN_REVENUE then ⟨max 0 (r / MIN_REVENUE * 15), r, "revenue"⟩
        else if r > MAX_REVENUE then
          ⟨max 0 (15 - (r - MAX_REVENUE) / MAX_REVENUE * 15), r, "revenue"⟩
        else st
    | none => st
  else st

/-- The `if (sizeScore === 0 && company.financials.ebitda)` block. -/
def sizeStep3 (st : SizeRes) (eOpt : Option ℚ) : SizeRes :=
  if st.score = 0 then
    match eOpt with
    | some e =>
        if e < MIN_EBITDA then ⟨max 0 (e / MIN_EBITDA * 15), e, "ebitda"⟩
        else if e > MAX_EBITDA then
          ⟨max 0 (15 - (e - MAX_EBITDA) / MAX_EBITDA * 15), e, "ebitda"⟩
        else st
    | none => st
  else st

/-- The partial-credit cascade of Factor 2, entered when no band is
fully satisfied: each `if`/assignment of the source in order, with the
`sizeScore === 0` guards before the revenue and EBITDA blocks. -/
def partialStage (hOpt rOpt eOpt : Option ℚ) : SizeRes :=
  sizeStep3 (sizeStep2 (sizeStep1 hOpt) rOpt) eOpt

/-- Factor 2 (`Size`, 0–25): the three full-credit bands in priority
order employees → revenue → EBITDA, then the partial-credit cascade. -/
def sizeFactor (c : Company) : SizeRes :=
  match fullBand (headcountOf c) MIN_EMPLOYEES MAX_EMPLOYEES with
  | some h => ⟨25, h, "employees"⟩
  | none =>
    match fullBand c.financials.revenue MIN_REVENUE MAX_REVENUE with
    | some r => ⟨25, r, "revenue"⟩
    | none =>
      match fullBand c.financials.ebitda MIN_EBITDA MAX_EBITDA with
      | some e => ⟨25, e, "ebitda"⟩
      | none =>
          partialStage (headcountOf c) (truthy c.financials.revenue)
            (truthy c.financials.ebitda)

/-- Factor label for the size dimension. -/
def sizeLabel (stype : String) : String :=
  if stype = "employees" then "Size (employees)"
  else if stype = "revenue" then "Size (revenue)"
  else if stype = "ebitda" then "Size (EBITDA)" else "Size"

/-- The fixed 8-term Microsoft vendor vocabulary of Factor 3. -/
def microsoftKeywords : List String :=
  ["microsoft", "azure", "office365", "m365", "sharepoint", "teams",
   "power", "dynamics"]

/-- Count of tech-stack entries matching the Microsoft vocabulary
(case-insensitive substring). -/
def microsoftCount (c : Company) : Nat :=
  (c.enrichment.tech_stack.filter
    (fun tech => microsoftKeywords.any (fun k => substrB k (lowerStr tech)))).length

/-- Factor 3: `Math.min(25, microsoftCount * 8.33)` when any match. -/
def microsoftScore (c : Company) : ℚ :=
  let n := microsoftCount c
  if 0 < n then min 25 ((n : ℚ) * (833/100)) else 0

/-- `calculateLocationScore` (`geocoding.ts`): step function of the
distance from Central London in km; `null` → 0. -/
def calculateLocationScore (distanceKm : Option ℚ) : ℚ :=
  match distanceKm with
  | none => 0
  | some d =>
      if d ≤ 25 then 25
      else if d ≤ 50 then 20
      else if d ≤ 100 then 15
      else if d ≤ 150 then 10
      else if d ≤ 200 then 5
      else 0

structure ScoreFactor where
  factor : String
  value : ℚ
  weight : ℚ
  deriving Repr, DecidableEq

structure ScoreResult where
  score : ℚ
  factors : List ScoreFactor
  deriving Repr, DecidableEq

/-- Stored `location_distance_km` first, else the resolved distance. -/
def distanceOf (c : Company) (resolved : Option ℚ) : Option ℚ :=
  match c.location_distance_km with
  | some d => some d
  | none => resolved

/-- `calculateInvestmentScore`. The injected distance resolution
(`getDistanceFromLondon`) is the extra argument `resolved`; the stored
`location_distance_km` is used first, exactly as in the source. -/
def calculateInvestmentScore (c : Company) (resolved : Option ℚ) : ScoreResult :=
  let ageS := ageScore c.yearsActive
  let sz := sizeFactor c
  let msS := microsoftScore c
  let dist : Option ℚ := distanceOf c resolved
  let locS := calculateLocationScore dist
  { score := round2 (ageS + sz.score + msS + locS)
    factors :=
      [⟨"Company Age (years)", c.yearsActive, ageS⟩,
       ⟨sizeLabel sz.stype, sz.value, sz.score⟩,
       ⟨"Microsoft Stack Alignment", (microsoftCount c : ℚ), msS⟩,
       ⟨"Location (distance from London)",
         (match dist with | some d => round1 d | none => 0), locS⟩] }

/-! ## MSP likelihood classifier (`analyzeMSPLikelihood`) -/

/-- The lowercased corpus: keywords, services, tech stack, description
and company name joined with spaces. -/
def allText (c : Company) : String :=
  lowerStr (String.intercalate " "
    (c.enrichment.business_keywords ++ c.enrichment.services ++
     c.enrichment.tech_stack ++
     [c.enrichment.business_description, c.company_name]))

/-- The fixed non-MSP vocabulary. -/
def negativeKeywords : List String :=
  ["software development", "application development", "engineering services",
   "custom software", "software engineering", "digital transformation",
   "digital solutions", "digital commerce", "ui/ux", "mobility engineering",
   "audio visual", "av systems", "stage solutions", "smart building",
   "systems integrator", "master systems integrator", "generative ai",
   "gen ai", "ai/ml", "machine learning"]

def foundNegativeKeywords (c : Company) : List String :=
  negativeKeywords.filter (fun k => substrB (lowerStr k) (allText c))

/-- `1.0` with no negative match, else `max(0.3, 1 − 0.2 × matchCount)`. -/
def contextPenalty (c : Company) : ℚ :=
  if 0 < (foundNegativeKeywords c).length then
    max (3/10) (1 - ((foundNegativeKeywords c).length : ℚ) * (1/5))
  else 1

/-- The MSP keyword vocabulary (29 phrases). -/
def mspKeywords : List String :=
  ["msp", "managed service provider", "managed services",
   "it support", "it services", "it consultancy", "it consulting",
   "managed it", "managed it services", "managed it support",
   "outsourced it", "it outsourcing", "it managed services",
   "helpdesk", "service desk", "it help desk",
   "network support", "infrastructure support", "cloud services",
   "cybersecurity", "cyber security", "it security",
   "remote monitoring", "remote management", "rmm",
   "professional services automation", "psa",
   "endpoint management", "device management"]

def foundMspKeywords (c : Company) : List String :=
  mspKeywords.filter (fun k => substrB (lowerStr k) (allText c))

/-- Category (a): evidence ratio × 30, penalised by `contextPenalty`. -/
def mspKeywordScore (c : Company) : ℚ :=
  min 30 (((foundMspKeywords c).length : ℚ) / (mspKeywords.length : ℚ) * 30)
    * contextPenalty c

/-- The MSP service vocabulary (22 phrases). -/
def mspServices : List String :=
  ["managed services", "it support", "helpdesk", "service desk",
   "network management", "server management", "cloud management",
   "security monitoring", "backup", "disaster recovery",
   "remote support", "on-site support", "it consultancy",
   "it consulting", "infrastructure management", "endpoint management",
   "patch management", "antivirus management", "email security",
   "firewall management", "vpn", "remote access"]

def foundServices (c : Company) : List String :=
  c.enrichment.services.filter
    (fun service => mspServices.any
      (fun m => substrB (lowerStr m) (lowerStr service)))

/-- Category (b): ratio over declared services (denominator floored at 1),
weight 25. -/
def serviceScore (c : Company) : ℚ :=
  min 25 (((foundServices c).length : ℚ)
    / ((max 1 c.enrichment.services.length : Nat) : ℚ) * 25)

/-- The infrastructure technology vocabulary (31 terms). -/
def itInfrastructureTech : List String :=
  ["microsoft 365", "office 365", "azure", "active directory",
   "windows server", "exchange", "sharepoint", "teams",
   "vmware", "hyper-v", "virtualization", "citrix",
   "cisco", "fortinet", "sonicwall", "palo alto",
   "connectwise", "kaseya", "n-able", "datto",
   "veeam", "acronis", "backup", "disaster recovery",
   "sophos", "symantec", "mcafee", "crowdstrike",
   "sentinelone", "bitdefender", "eset"]

def foundInfraTech (c : Company) : List String :=
  c.enrichment.tech_stack.filter
    (fun tech => itInfrastructureTech.any
      (fun m => substrB (lowerStr m) (lowerStr tech)))

/-- Category (c): ratio over vendor entries (denominator floored at 1),
weight 20. -/
def techScore (c : Company) : ℚ :=
  min 20 (((foundInfraTech c).length : ℚ)
    / ((max 1 c.enrichment.tech_stack.length : Nat) : ℚ) * 20)

/-- The ten case-insensitive description regexes, each expanded into its
finite list of literal alternatives (every pattern is literals with
alternation or an optional literal group). -/
def mspDescriptionPatterns : List (List String) :=
  [["managed service", "managed it service"],
   ["it support"],
   ["helpdesk"],
   ["service desk"],
   ["remote monitoring", "remote management", "remote support"],
   ["outsourced it"],
   ["it outsourcing"],
   ["network management", "network support"],
   ["infrastructure management", "infrastructure support"],
   ["cloud services", "cloud management"]]

def descriptionMatches (c : Company) : Nat :=
  (mspDescriptionPatterns.filter
    (fun alts => alts.any
      (fun a => substrB a (lowerStr c.enrichment.business_description)))).length

/-- Category (d): pattern-match ratio, weight 15. -/
def descriptionScore (c : Company) : ℚ :=
  min 15 ((descriptionMatches c : ℚ) / (mspDescriptionPatterns.length : ℚ) * 15)

/-- Category (e): any SIC code containing `62020` or `62090`. -/
def hasItSic (c : Company) : Bool :=
  c.sic_codes.any (fun code => substrB "62020" code || substrB "62090" code)

def sicBonus (c : Company) : ℚ := if hasItSic c then 10 else 0

/-- Backup-only / security-only detection (non-scoring operator flag). -/
def isSpecializedMSP (c : Company) : Bool :=
  ((foundServices c).any (fun s => substrB "backup" (lowerStr s)) &&
    !((foundServices c).any (fun s =>
      substrB "it support" (lowerStr s) || substrB "helpdesk" (lowerStr s)))) ||
  ((foundServices c).any (fun s =>
      substrB "security" (lowerStr s) || substrB "mdr" (lowerStr s)) &&
    !((foundServices c).any (fun s =>
      substrB "infrastructure" (lowerStr s) ||
      substrB "network management" (lowerStr s))))

/-- The unrounded total used for confidence gating. -/
def mspRawScore (c : Company) : ℚ :=
  mspKeywordScore c + serviceScore c + techScore c + descriptionScore c +
    sicBonus c

/-- Confidence gating on the unrounded score. -/
def mspConfidence (c : Company) : String :=
  if 30 ≤ mspRawScore c then "high"
  else if 15 ≤ mspRawScore c ∧
      contextPenalty c ≥
        (if 0 < (foundNegativeKeywords c).length then 6/10 else 3/10) then
    "medium"
  else "low"

structure MSPIndicator where
  category : String
  found : Bool
  evidence : List String
  deriving Repr, DecidableEq

structure MSPResult where
  score : ℤ
  confidence : String
  indicators : List MSPIndicator
  deriving Repr, DecidableEq

/-- `analyzeMSPLikelihood`: rounded score, confidence tier and the seven
indicators in source order. -/
def analyzeMSPLikelihood (c : Company) : MSPResult :=
  { score := jsRound (mspRawScore c)
    confidence := mspConfidence c
    indicators :=
      [⟨"Negative Keywords (non-MSP indicators)",
        0 < (foundNegativeKeywords c).length,
        (foundNegativeKeywords c).take 5⟩,
       ⟨"MSP Keywords", 0 < (foundMspKeywords c).length,
        (foundMspKeywords c).take 5⟩,
       ⟨"MSP Services", 0 < (foundServices c).length,
        (foundServices c).take 5⟩,
       ⟨"IT Infrastructure Technology", 0 < (foundInfraTech c).length,
        (foundInfraTech c).take 5⟩,
       ⟨"Business Description", 0 < descriptionMatches c,
        if 0 < descriptionMatches c then ["Contains MSP-related descriptions"]
        else []⟩,
       ⟨"SIC Code (IT Services)", hasItSic c,
        if hasItSic c then
          c.sic_codes.filter
            (fun code => substrB "62020" code || substrB "62090" code)
        else []⟩,
       ⟨"Specialized MSP (not full-service)", isSpecializedMSP c,
        if isSpecializedMSP c then
          ["Detected as specialized MSP (backup/security only)"]
        else []⟩] }

/-! ## Thesis criteria matcher (`matchesThesisCriteria`).
The human-readable `details` strings are presentation-only (no claim
concerns them) and are not modelled. -/

/-- Criterion 5 EBITDA input: `financials.ebitda || financials.profit || 0`. -/
def thesisEbitda (c : Company) : ℚ :=
  match truthy c.financials.ebitda with
  | some x => x
  | none => (truthy c.financials.profit).getD 0

/-- Criterion 5 revenue input: `financials.revenue || 0`. -/
def thesisRevenue (c : Company) : ℚ := (truthy c.financials.revenue).getD 0

/-- Criterion 5 employee input:
`financials.employees || enrichment.headcount || 0`. -/
def thesisEmployees (c : Company) : ℚ := (headcountOf c).getD 0

def ebitdaInRange (c : Company) : Bool :=
  decide (MIN_EBITDA ≤ thesisEbitda c ∧ thesisEbitda c ≤ MAX_EBITDA)

def revenueInRange (c : Company) : Bool :=
  decide (MIN_REVENUE ≤ thesisRevenue c ∧ thesisRevenue c ≤ MAX_REVENUE)

def employeesInRange (c : Company) : Bool :=
  decide (MIN_EMPLOYEES ≤ thesisEmployees c ∧ thesisEmployees c ≤ MAX_EMPLOYEES)

def sizeProfileMet (c : Company) : Bool :=
  ebitdaInRange c || revenueInRange c || employeesInRange c

/-- `ebitda > 0 || revenue > 0 || employees > 0` over the defaulted
criterion-5 inputs. -/
def hasAnyData (c : Company) : Bool :=
  decide (0 < thesisEbitda c) || decide (0 < thesisRevenue c) ||
    decide (0 < thesisEmployees c)

/-- The `met` flag of the aggregate size-profile criterion. -/
def sizeProfileMetOrNoData (c : Company) : Bool :=
  sizeProfileMet c || !hasAnyData c

def ageMet (c : Company) : Bool := decide (3 ≤ c.yearsActive)

def activeMet (c : Company) : Bool := c.company_status = "active"

def noInsolvencyMet (c : Company) : Bool :=
  !c.has_insolvency_history && !c.has_been_liquidated

/-- `code.split(' ')[0].trim()`. -/
def sicFirstWord (code : String) : String :=
  ((code.splitOn " ").headD "").trim

def hasTargetSic (c : Company) : Bool :=
  c.sic_codes.any (fun code =>
    TARGET_SIC_CODES.contains (sicFirstWord code) ||
    code.startsWith "62020" || code.startsWith "62090")

def hasMicrosoftStack (c : Company) : Bool :=
  c.enrichment.tech_stack.any
    (fun tech => microsoftKeywords.any (fun k => substrB k (lowerStr tech)))

structure Criterion where
  name : String
  met : Bool
  deriving Repr, DecidableEq

structure ThesisResult where
  /-- The aggregate `matches` flag (`matches` is reserved in Lean). -/
  matchesFlag : Bool
  criteria : List Criterion
  deriving Repr, DecidableEq

/-- `matchesThesisCriteria`: `matches` starts `true` and is cleared by
each failing gating criterion; criterion 6 (Microsoft stack) never
touches it. -/
def matchesThesisCriteria (c : Company) : ThesisResult :=
  { matchesFlag := ageMet c && activeMet c && noInsolvencyMet c &&
      hasTargetSic c && (sizeProfileMet c || !hasAnyData c)
    criteria :=
      [⟨"Company Age (3+ years)", ageMet c⟩,
       ⟨"Active Status", activeMet c⟩,
       ⟨"No Insolvency History", noInsolvencyMet c⟩,
       ⟨"SIC Code (62020/62090)", hasTargetSic c⟩,
       ⟨"EBITDA Range (£500k-£1m)",
         ebitdaInRange c || decide (thesisEbitda c = 0)⟩,
       ⟨"Revenue Range (£3m-£6m)",
         revenueInRange c || decide (thesisRevenue c = 0)⟩,
       ⟨"Employee Range (15-40)",
         employeesInRange c || decide (thesisEmployees c = 0)⟩,
       ⟨"Size Profile (EBITDA OR Revenue OR Employees)",
         sizeProfileMetOrNoData c⟩,
       ⟨"Microsoft Stack (Preferred)", hasMicrosoftStack c⟩] }

/-! ## Multi-year trend calculator (`calculateTrends`).
The zod schema's nullish numeric fields are one `Option` (`null` and
`undefined` collapse; the source treats both as falsy in every guard the
claims touch). `period_end` is the epoch-millisecond value
`new Date(period_end).getTime()` used by the sort comparator. -/

structure AnnualFinancialData where
  period_end : ℤ
  revenue : Option ℚ
  profit_after_tax : Option ℚ
  ebitda : Option ℚ
  /-- `employees.average_count` -/
  employees_average_count : Option ℚ
  /-- `ratios.ebitda_margin` -/
  ratios_ebitda_margin : Option ℚ
  /-- `revenue_breakdown.recurring_revenue_percentage` -/
  recurring_revenue_percentage : Option ℚ
  deriving Repr, DecidableEq

/-- Insert into a list already sorted by descending `period_end`. -/
def insertDesc (x : AnnualFinancialData) :
    List AnnualFinancialData → List AnnualFinancialData
  | [] => [x]
  | y :: ys =>
      if x.period_end ≤ y.period_end then y :: insertDesc x ys
      else x :: y :: ys

/-- `[...annualData].sort((a, b) => b.period_end − a.period_end)`:
sort descending by `period_end` (records are unique by `period_end`
per the caller invariant, so tie order is immaterial). -/
def sortDesc (l : List AnnualFinancialData) : List AnnualFinancialData :=
  l.foldr insertDesc []

/-- `((latest − previous) / previous) × 100`, only when both values are
truthy (present and nonzero). -/
def growth1y (l p : Option ℚ) : Option ℚ :=
  match truthy l, truthy p with
  | some a, some b => some ((a - b) / b * 100)
  | _, _ => none

/-- Direction label with the ±5 % threshold. -/
def trendLabel (g : ℚ) : String :=
  if g > 5 then "growing" else if g < -5 then "declining" else "stable"

/-- EBITDA-margin direction with the ±1-point threshold. -/
def marginTrend (a b : AnnualFinancialData) : Option String :=
  match truthy a.ratios_ebitda_margin, truthy b.ratios_ebitda_margin with
  | some x, some y =>
      some (if x - y > 1 then "improving"
            else if x - y < -1 then "declining" else "stable")
  | _, _ => none

/-- The value `(Math.pow(latest/earlier, 1/3) − 1) × 100`. The cube root
is irrational in general, so the embedding records the ratio
`latest/earlier` that determines it; per IEEE 754 / JS `Math.pow`
semantics, a negative base with non-integer exponent yields NaN, which
`nanVal` records. -/
inductive CagrVal where
  | nanVal : CagrVal
  | ofRatio : ℚ → CagrVal
  deriving Repr, DecidableEq

def mkCagr (latest earlier : ℚ) : CagrVal :=
  if latest / earlier < 0 then CagrVal.nanVal
  else CagrVal.ofRatio (latest / earlier)

/-- CAGR field guard: both endpoints truthy. -/
def cagrField (l e : Option ℚ) : Option CagrVal :=
  match truthy l, truthy e with
  | some a, some b => some (mkCagr a b)
  | _, _ => none

/-- Mean over the values present among up to the 3 most recent records. -/
def avgOf (l : List (Option ℚ)) : Option ℚ :=
  let vs := l.filterMap id
  if vs.length = 0 then none else some (vs.sum / (vs.length : ℚ))

structure Trends where
  revenue_growth_1y : Option ℚ
  profit_growth_1y : Option ℚ
  ebitda_growth_1y : Option ℚ
  employee_growth_1y : Option ℚ
  revenue_trend : Option String
  profit_trend : Option String
  margin_trend : Option String
  revenue_growth_3y_cagr : Option CagrVal
  profit_growth_3y_cagr : Option CagrVal
  average_revenue_3y : Option ℚ
  average_profit_3y : Option ℚ
  average_ebitda_3y : Option ℚ
  average_ebitda_margin_3y : Option ℚ
  average_recurring_revenue_pct_3y : Option ℚ
  deriving Repr, DecidableEq

/-- The empty object `{}`: no trend field set. -/
def emptyTrends : Trends :=
  ⟨none, none, none, none, none, none, none, none, none, none, none,
   none, none, none⟩

/-- `calculateTrends`: empty input returns `{}`; otherwise the records
are sorted descending by `period_end`, 1-year growth and directions need
≥ 2 records, the two CAGR fields need ≥ 3 records, and the averages run
over the (up to) 3 most recent records. -/
def calculateTrends (l : List AnnualFinancialData) : Trends :=
  if l.length < 1 then emptyTrends
  else
    let s := sortDesc l
    { revenue_growth_1y :=
        match s with
        | a :: b :: _ => growth1y a.revenue b.revenue
        | _ => none
      profit_growth_1y :=
        match s with
        | a :: b :: _ => growth1y a.profit_after_tax b.profit_after_tax
        | _ => none
      ebitda_growth_1y :=
        match s with
        | a :: b :: _ => growth1y a.ebitda b.ebitda
        | _ => none
      employee_growth_1y :=
        match s with
        | a :: b :: _ =>
            growth1y a.employees_average_count b.employees_average_count
        | _ => none
      revenue_trend :=
        match s with
        | a :: b :: _ => (growth1y a.revenue b.revenue).map trendLabel
        | _ => none
      profit_trend :=
        match s with
        | a :: b :: _ =>
            (growth1y a.profit_after_tax b.profit_after_tax).map trendLabel
        | _ => none
      margin_trend :=
        match s with
        | a :: b :: _ => marginTrend a b
        | _ => none
      revenue_growth_3y_cagr :=
        match s with
        | a :: _ :: c :: _ => cagrField a.revenue c.revenue
        | _ => none
      profit_growth_3y_cagr :=
        match s with
        | a :: _ :: c :: _ => cagrField a.profit_after_tax c.profit_after_tax
        | _ => none
      average_revenue_3y := avgOf ((s.take 3).map (fun d => d.revenue))
      average_profit_3y := avgOf ((s.take 3).map (fun d => d.profit_after_tax))
      average_ebitda_3y := avgOf ((s.take 3).map (fun d => d.ebitda))
      average_ebitda_margin_3y :=
        avgOf ((s.take 3).map (fun d => d.ratios_ebitda_margin))
      average_recurring_revenue_pct_3y :=
        avgOf ((s.take 3).map (fun d => d.recurring_revenue_percentage)) }

/-! ## Auxiliary definitions for the statements

`partialCreditOut`/`sizePartialPolicy` express the partial-credit
reporting policy of Factor 2 as a selection function (first dimension
with positive partial credit, else the last available dimension with 0
points), to be proved equal to the source cascade `partialStage` on
out-of-band inputs. -/

/-- Partial credit of an out-of-band value: below the minimum
`max(0, v/lo × 15)`, above the maximum `max(0, 15 − (v−hi)/hi × 15)`. -/
def partialCreditOut (v lo hi : ℚ) : ℚ :=
  if v < lo then max 0 (v / lo * 15) else max 0 (15 - (v - hi) / hi * 15)

/-- First dimension with positive partial credit; when none is positive,
the last available dimension with 0 points; `⟨0, 0, "none"⟩` when no
dimension is available. -/
def policyAux : List (ℚ × ℚ × ℚ × String) → SizeRes
  | [] => ⟨0, 0, "none"⟩
  | (v, lo, hi, tag) :: rest =>
      let p := partialCreditOut v lo hi
      if 0 < p then ⟨p, v, tag⟩
      else
        let r := policyAux rest
        if r.stype = "none" then ⟨0, v, tag⟩ else r

/-- The selection policy over the three dimensions in priority order. -/
def sizePartialPolicy (hOpt rOpt eOpt : Option ℚ) : SizeRes :=
  policyAux
    ((hOpt.toList.map fun v => (v, MIN_EMPLOYEES, MAX_EMPLOYEES, "employees")) ++
     (rOpt.toList.map fun v => (v, MIN_REVENUE, MAX_REVENUE, "revenue")) ++
     (eOpt.toList.map fun v => (v, MIN_EBITDA, MAX_EBITDA, "ebitda")))

/-! ### Concrete inputs for witnesses and counterexamples -/

/-- A minimal active 5-year-old company with no financial data, no
enrichment and no cached distance. -/
def baseCompany : Company :=
  { company_name := "acme"
    company_status := "active"
    yearsActive := 5
    has_insolvency_history := false
    has_been_liquidated := false
    sic_codes := []
    financials := ⟨none, none, none, none⟩
    enrichment := ⟨none, [], [], [], ""⟩
    location_distance_km := none }

/-- Incorporation date one year in the future: `yearsActive = −1`. -/
def companyFutureInc : Company := { baseCompany with yearsActive := -1 }

/-- Exactly 20 employees, no other financial data. -/
def companyEmp20 : Company :=
  { baseCompany with financials := ⟨none, none, none, some 20⟩ }

/-- 100 employees (above the band, zero partial credit), nothing else. -/
def companyEmp100 : Company :=
  { baseCompany with financials := ⟨none, none, none, some 100⟩ }

/-- Empty enrichment but a target SIC code. -/
def companySic : Company := { baseCompany with sic_codes := ["62020"] }

/-- Description holding four negative-context phrases and nothing
matching any MSP vocabulary. -/
def companyNeg4 : Company :=
  { baseCompany with
    enrichment := ⟨none, [], [], [],
      "software development digital transformation machine learning audio visual"⟩ }

/-- Profit £700k, no EBITDA: criterion 5 engages the profit fallback. -/
def companyProfit700k : Company :=
  { baseCompany with financials := ⟨none, some 700000, none, none⟩ }

/-- EBITDA £700k (fallback not engaged). -/
def companyEbitda700k : Company :=
  { baseCompany with financials := ⟨none, none, some 700000, none⟩ }

/-- An annual record with only `period_end`, `revenue` and
`profit_after_tax` set. -/
def mkAFD (pe : ℤ) (rev prof : Option ℚ) : AnnualFinancialData :=
  ⟨pe, rev, prof, none, none, none, none⟩

/-- Latest profit 100, middle absent, third-back profit −100: the CAGR
guard passes (both truthy) with a negative ratio. -/
def trendRecsNegProfit : List AnnualFinancialData :=
  [mkAFD 3 none (some 100), mkAFD 2 none none, mkAFD 1 none (some (-100))]

/-- Revenues 121, 110, 100 in descending period order. -/
def trendRecsPos : List AnnualFinancialData :=
  [mkAFD 3 (some 121) none, mkAFD 2 (some 110) none, mkAFD 1 (some 100) none]

/-- Incorporated 2 years ago. -/
def companyAge2 : Company := { baseCompany with yearsActive := 2 }

/-! ## Helper lemmas -/

theorem jsRound_eq_floor (x : ℚ) : jsRound x = ⌊x + 1/2⌋ := by
  rw [jsRound, Rat.floor_def', Rat.floor_def]

theorem round2_nonneg {x : ℚ} (h : 0 ≤ x) : 0 ≤ round2 x := by
  unfold round2
  rw [jsRound_eq_floor]
  apply div_nonneg _ (by norm_num)
  have : (0 : ℤ) ≤ ⌊x * 100 + 1/2⌋ := Int.le_floor.mpr (by push_cast; linarith)
  exact_mod_cast this

theorem round2_le_100 {x : ℚ} (h : x ≤ 100) : round2 x ≤ 100 := by
  unfold round2
  rw [jsRound_eq_floor]
  rw [div_le_iff₀ (by norm_num : (0:ℚ) < 100)]
  have : ⌊x * 100 + 1/2⌋ < (10001 : ℤ) := Int.floor_lt.mpr (by push_cast; linarith)
  have h2 : ⌊x * 100 + 1/2⌋ ≤ (10000 : ℤ) := by omega
  calc (⌊x * 100 + 1/2⌋ : ℚ) ≤ (10000 : ℚ) := by exact_mod_cast h2
  _ = 100 * 100 := by norm_num

theorem ageScore_le_25 (y : ℚ) : ageScore y ≤ 25 := min_le_left _ _

theorem ageScore_nonneg {y : ℚ} (h : 0 ≤ y) : 0 ≤ ageScore y :=
  le_min (by norm_num) (mul_nonneg h (by norm_num))

theorem sizeStep1_bounds (ho : Option ℚ) :
    0 ≤ (sizeStep1 ho).score ∧ (sizeStep1 ho).score ≤ 25 := by
  unfold sizeStep1
  rcases ho with _ | h
  · exact ⟨le_refl 0, by norm_num⟩
  · simp only [MIN_EMPLOYEES, MAX_EMPLOYEES]
    split_ifs <;>
      refine ⟨?_, ?_⟩ <;>
      first
        | exact le_max_left _ _
        | exact max_le (by norm_num) (by linarith)
        | norm_num

theorem sizeStep2_bounds (st : SizeRes) (ro : Option ℚ)
    (hst : 0 ≤ st.score ∧ st.score ≤ 25) :
    0 ≤ (sizeStep2 st ro).score ∧ (sizeStep2 st ro).score ≤ 25 := by
  unfold sizeStep2
  rcases ro with _ | r
  · split_ifs <;> exact hst
  · simp only [MIN_REVENUE, MAX_REVENUE]
    split_ifs <;>
      first
        | exact hst
        | refine ⟨le_max_left _ _, max_le (by norm_num) (by linarith)⟩

theorem sizeStep3_bounds (st : SizeRes) (eo : Option ℚ)
    (hst : 0 ≤ st.score ∧ st.score ≤ 25) :
    0 ≤ (sizeStep3 st eo).score ∧ (sizeStep3 st eo).score ≤ 25 := by
  unfold sizeStep3
  rcases eo with _ | e
  · split_ifs <;> exact hst
  · simp only [MIN_EBITDA, MAX_EBITDA]
    split_ifs <;>
      first
        | exact hst
        | refine ⟨le_max_left _ _, max_le (by norm_num) (by linarith)⟩

theorem partialStage_score_bounds (ho ro eo : Option ℚ) :
    0 ≤ (partialStage ho ro eo).score ∧ (partialStage ho ro eo).score ≤ 25 :=
  sizeStep3_bounds _ _ (sizeStep2_bounds _ _ (sizeStep1_bounds ho))

theorem sizeFactor_score_bounds (c : Company) :
    0 ≤ (sizeFactor c).score ∧ (sizeFactor c).score ≤ 25 := by
  unfold sizeFactor
  cases hfb : fullBand (headcountOf c) MIN_EMPLOYEES MAX_EMPLOYEES with
  | some h => exact ⟨by norm_num, by norm_num⟩
  | none =>
    cases hfr : fullBand c.financials.revenue MIN_REVENUE MAX_REVENUE with
    | some r => exact ⟨by norm_num, by norm_num⟩
    | none =>
      cases hfe : fullBand c.financials.ebitda MIN_EBITDA MAX_EBITDA with
      | some e => exact ⟨by norm_num, by norm_num⟩
      | none => exact partialStage_score_bounds _ _ _

theorem microsoftScore_bounds (c : Company) :
    0 ≤ microsoftScore c ∧ microsoftScore c ≤ 25 := by
  unfold microsoftScore
  dsimp only
  split_ifs
  · exact ⟨le_min (by norm_num) (by positivity), min_le_left _ _⟩
  · exact ⟨le_refl 0, by norm_num⟩

theorem locationScore_bounds (o : Option ℚ) :
    0 ≤ calculateLocationScore o ∧ calculateLocationScore o ≤ 25 := by
  unfold calculateLocationScore
  rcases o with _ | d
  · exact ⟨le_refl 0, by norm_num⟩
  · dsimp only; split_ifs <;> norm_num

/-! ## Claims -/

/-- C10: `calculateTrends` on the empty record list returns the empty
object: no growth, CAGR, direction or average field is present. -/
theorem c10_empty_input_returns_empty_object :
    calculateTrends [] = emptyTrends := by rfl

/-- C2 counterexample: the age factor at exactly 3 years is
`min(25, 3 × 8.33) = 24.99`, not the full 25 points the claim states. -/
theorem c2_counterexample_age_three :
    ageScore 3 = 2499/100 ∧ (2499/100 : ℚ) ≠ 25 := by
  constructor
  · norm_num [ageScore, min_def]
  · norm_num

/-- C2 (amended): the age factor `min(25, y × 8.33)` is non-decreasing
everywhere (in particular on `[0, 3]`), reaches the full 25 points
exactly from `y = 2500/833 ≈ 3.0012` years on, and at exactly 3 years
equals 24.99. -/
theorem c2_age_factor_monotone_plateau :
    (∀ a b : ℚ, a ≤ b → ageScore a ≤ ageScore b) ∧
    (∀ y : ℚ, 2500/833 ≤ y → ageScore y = 25) ∧
    ageScore 3 = 2499/100 := by
  refine ⟨?_, ?_, by norm_num [ageScore, min_def]⟩
  · intro a b hab
    unfold ageScore
    exact min_le_min le_rfl (mul_le_mul_of_nonneg_right hab (by norm_num))
  · intro y hy
    unfold ageScore
    apply min_eq_left
    calc (25 : ℚ) = 2500/833 * (833/100) := by norm_num
    _ ≤ y * (833/100) := mul_le_mul_of_nonneg_right hy (by norm_num)

/-- C2 witness: the monotonicity and plateau legs at concrete inputs. -/
theorem c2_age_factor_witness : ageScore 1 ≤ ageScore 2 ∧ ageScore 4 = 25 :=
  ⟨c2_age_factor_monotone_plateau.1 1 2 (by norm_num),
   c2_age_factor_monotone_plateau.2.1 4 (by norm_num)⟩

/-- C7: the aggregate `matches` flag is the conjunction of criteria 1–5
(age, status, insolvency, SIC, absence-tolerant size profile), is
unchanged under any change of the technology stack (criterion 6 is
informational only), and a company incorporated 2 years ago always
yields `matches = false`. -/
theorem c7_matches_is_and_of_first_five (c : Company) :
    ((matchesThesisCriteria c).matchesFlag = true ↔
      (ageMet c = true ∧ activeMet c = true ∧ noInsolvencyMet c = true ∧
        hasTargetSic c = true ∧ sizeProfileMetOrNoData c = true)) ∧
    (∀ ts : List String,
      (matchesThesisCriteria
        { c with enrichment := { c.enrichment with tech_stack := ts } }).matchesFlag
        = (matchesThesisCriteria c).matchesFlag) ∧
    (c.yearsActive = 2 → (matchesThesisCriteria c).matchesFlag = false) := by
  refine ⟨?_, ?_, ?_⟩
  · simp [matchesThesisCriteria, sizeProfileMetOrNoData, Bool.and_eq_true,
      and_assoc]
  · intro ts
    rfl
  · intro h2
    have : ageMet c = false := by
      unfold ageMet
      rw [h2]
      norm_num
    simp [matchesThesisCriteria, this]

/-- C7 witness: a concrete 2-year-old company fails the aggregate. -/
theorem c7_matches_witness :
    (matchesThesisCriteria companyAge2).matchesFlag = false :=
  (c7_matches_is_and_of_first_five companyAge2).2.2 rfl

/-- C1 counterexample: a company whose incorporation date lies one year
in the future (`yearsActive = −1`) gets age factor `−8.33` and total
score `−8.33 ∉ [0, 100]`. -/
theorem c1_counterexample_future_incorporation :
    (calculateInvestmentScore companyFutureInc none).score = -833/100 ∧
    ¬(0 ≤ (calculateInvestmentScore companyFutureInc none).score) := by
  have hscore : (calculateInvestmentScore companyFutureInc none).score
      = round2 (ageScore (-1) + 0 + 0 + 0) := rfl
  have hage : ageScore (-1) = -833/100 := by
    rw [ageScore]
    norm_num [min_def]
  have hfl : (⌊(-833 : ℚ)/100 * 100 + 1/2⌋ : ℤ) = -833 :=
    Int.floor_eq_iff.mpr (by constructor <;> norm_num)
  have hval : (calculateInvestmentScore companyFutureInc none).score = -833/100 := by
    rw [hscore, hage]
    rw [round2, jsRound_eq_floor]
    norm_num [hfl]
  exact ⟨hval, by rw [hval]; norm_num⟩

/-- C1 (amended): the returned score always equals the rounded (2 dp)
sum of the four reported factor weights, and — provided the
incorporation date is not in the future, `0 ≤ yearsActive` — it lies in
`[0, 100]`. -/
theorem c1_score_rounded_sum_in_range (c : Company) (resolved : Option ℚ)
    (h : 0 ≤ c.yearsActive) :
    (calculateInvestmentScore c resolved).score =
      round2 (((calculateInvestmentScore c resolved).factors.map
        ScoreFactor.weight).sum) ∧
    0 ≤ (calculateInvestmentScore c resolved).score ∧
    (calculateInvestmentScore c resolved).score ≤ 100 := by
  obtain ⟨hsz0, hsz1⟩ := sizeFactor_score_bounds c
  obtain ⟨hms0, hms1⟩ := microsoftScore_bounds c
  obtain ⟨hlo0, hlo1⟩ := locationScore_bounds (distanceOf c resolved)
  have ha0 := ageScore_nonneg h
  have ha1 := ageScore_le_25 c.yearsActive
  unfold calculateInvestmentScore
  dsimp only
  refine ⟨?_, round2_nonneg (by linarith), round2_le_100 (by linarith)⟩
  simp only [List.map_cons, List.map_nil, List.sum_cons, List.sum_nil]
  congr 1
  ring

/-- C1 witness: the amended theorem at a concrete record. -/
theorem c1_score_witness :
    0 ≤ (calculateInvestmentScore baseCompany none).score ∧
    (calculateInvestmentScore baseCompany none).score ≤ 100 :=
  ⟨(c1_score_rounded_sum_in_range baseCompany none (by norm_num [baseCompany])).2.1,
   (c1_score_rounded_sum_in_range baseCompany none (by norm_num [baseCompany])).2.2⟩

/-! ### Factor 2: equivalence of the source cascade with the selection
policy (first positive partial credit, else last available dimension) -/

theorem truthy_some_of_ne {h : ℚ} (hne : h ≠ 0) : truthy (some h) = some h := by
  simp [truthy, hne]

theorem sizeStep3_eq_policy (st : SizeRes) (eo : Option ℚ) (hst : st.score = 0)
    (he : ∀ e, eo = some e → e < MIN_EBITDA ∨ MAX_EBITDA < e) :
    sizeStep3 st eo =
      (if (policyAux (eo.toList.map
            fun v => (v, MIN_EBITDA, MAX_EBITDA, "ebitda"))).stype = "none"
       then st
       else policyAux (eo.toList.map
            fun v => (v, MIN_EBITDA, MAX_EBITDA, "ebitda"))) := by
  rcases eo with _ | e
  · simp [sizeStep3, policyAux, hst]
  · rcases he e rfl with hlt | hgt
    · have hp0 : (0:ℚ) ≤ max 0 (e / MIN_EBITDA * 15) := le_max_left _ _
      rcases eq_or_lt_of_le hp0 with heq | hpos
      · simp [sizeStep3, policyAux, partialCreditOut, hst, hlt, ← heq]
      · simp [sizeStep3, policyAux, partialCreditOut, hst, hlt, hpos]
    · have hnlt : ¬ e < MIN_EBITDA := by
        have : MIN_EBITDA < MAX_EBITDA := by norm_num [MIN_EBITDA, MAX_EBITDA]
        push_neg
        linarith
      have hp0 : (0:ℚ) ≤ max 0 (15 - (e - MAX_EBITDA) / MAX_EBITDA * 15) :=
        le_max_left _ _
      rcases eq_or_lt_of_le hp0 with heq | hpos
      · simp [sizeStep3, policyAux, partialCreditOut, hst, hnlt, hgt, ← heq]
      · simp [sizeStep3, policyAux, partialCreditOut, hst, hnlt, hgt, hpos]

theorem step23_eq_policy (st : SizeRes) (ro eo : Option ℚ) (hst : st.score = 0)
    (hr : ∀ r, ro = some r → r < MIN_REVENUE ∨ MAX_REVENUE < r)
    (he : ∀ e, eo = some e → e < MIN_EBITDA ∨ MAX_EBITDA < e) :
    sizeStep3 (sizeStep2 st ro) eo =
      (if (policyAux
            ((ro.toList.map fun v => (v, MIN_REVENUE, MAX_REVENUE, "revenue")) ++
             (eo.toList.map fun v => (v, MIN_EBITDA, MAX_EBITDA, "ebitda")))).stype
            = "none"
       then st
       else policyAux
            ((ro.toList.map fun v => (v, MIN_REVENUE, MAX_REVENUE, "revenue")) ++
             (eo.toList.map fun v => (v, MIN_EBITDA, MAX_EBITDA, "ebitda")))) := by
  rcases ro with _ | r
  · have h2 : sizeStep2 st none = st := by simp [sizeStep2, hst]
    rw [h2]
    simpa using sizeStep3_eq_policy st eo hst he
  · rcases hr r rfl with hlt | hgt
    · have h2 : sizeStep2 st (some r) =
          ⟨max 0 (r / MIN_REVENUE * 15), r, "revenue"⟩ := by
        simp [sizeStep2, hst, hlt]
      have hp0 : (0:ℚ) ≤ max 0 (r / MIN_REVENUE * 15) := le_max_left _ _
      rcases eq_or_lt_of_le hp0 with heq | hpos
      · rw [h2, ← heq]
        rw [sizeStep3_eq_policy ⟨0, r, "revenue"⟩ eo rfl he]
        by_cases hq : (policyAux (eo.toList.map
            (fun v => (v, MIN_EBITDA, MAX_EBITDA, "ebitda")))).stype
            = "none" <;>
          simp [policyAux, partialCreditOut, hlt, ← heq, hq, Option.toList_some,
            List.cons_append, List.nil_append]
      · have h3 : sizeStep3 ⟨max 0 (r / MIN_REVENUE * 15), r, "revenue"⟩ eo =
            ⟨max 0 (r / MIN_REVENUE * 15), r, "revenue"⟩ := by
          simp only [sizeStep3]
          rw [if_neg]
          exact fun hc => absurd hc.symm (ne_of_lt hpos)
        rw [h2, h3]
        simp [policyAux, partialCreditOut, hlt, hpos]
    · have hnlt : ¬ r < MIN_REVENUE := by
        have : MIN_REVENUE < MAX_REVENUE := by norm_num [MIN_REVENUE, MAX_REVENUE]
        push_neg
        linarith
      have h2 : sizeStep2 st (some r) =
          ⟨max 0 (15 - (r - MAX_REVENUE) / MAX_REVENUE * 15), r, "revenue"⟩ := by
        simp [sizeStep2, hst, hnlt, hgt]
      have hp0 : (0:ℚ) ≤ max 0 (15 - (r - MAX_REVENUE) / MAX_REVENUE * 15) :=
        le_max_left _ _
      rcases eq_or_lt_of_le hp0 with heq | hpos
      · rw [h2, ← heq]
        rw [sizeStep3_eq_policy ⟨0, r, "revenue"⟩ eo rfl he]
        by_cases hq : (policyAux (eo.toList.map
            (fun v => (v, MIN_EBITDA, MAX_EBITDA, "ebitda")))).stype
            = "none" <;>
          simp [policyAux, partialCreditOut, hnlt, hgt, ← heq, hq,
            Option.toList_some, List.cons_append, List.nil_append]
      · have h3 : sizeStep3 ⟨max 0 (15 - (r - MAX_REVENUE) / MAX_REVENUE * 15),
            r, "revenue"⟩ eo =
            ⟨max 0 (15 - (r - MAX_REVENUE) / MAX_REVENUE * 15), r, "revenue"⟩ := by
          simp only [sizeStep3]
          rw [if_neg]
          exact fun hc => absurd hc.symm (ne_of_lt hpos)
        rw [h2, h3]
        simp [policyAux, partialCreditOut, hnlt, hgt, hpos]

theorem policy23_none (ro eo : Option ℚ)
    (hq : (policyAux
        ((ro.toList.map fun v => (v, MIN_REVENUE, MAX_REVENUE, "revenue")) ++
         (eo.toList.map fun v => (v, MIN_EBITDA, MAX_EBITDA, "ebitda")))).stype
        = "none") :
    policyAux
        ((ro.toList.map fun v => (v, MIN_REVENUE, MAX_REVENUE, "revenue")) ++
         (eo.toList.map fun v => (v, MIN_EBITDA, MAX_EBITDA, "ebitda")))
      = ⟨0, 0, "none"⟩ := by
  rcases ro with _ | r <;> rcases eo with _ | e <;>
    first
      | rfl
      | (exfalso
         revert hq
         simp only [Option.toList_some, Option.toList_none, List.map_cons,
           List.map_nil, List.nil_append, List.cons_append, List.append_nil]
         dsimp only [policyAux]
         split_ifs <;> simp_all)

theorem partialStage_eq_policy (ho ro eo : Option ℚ)
    (hh : ∀ h, ho = some h → h < MIN_EMPLOYEES ∨ MAX_EMPLOYEES < h)
    (hr : ∀ r, ro = some r → r < MIN_REVENUE ∨ MAX_REVENUE < r)
    (he : ∀ e, eo = some e → e < MIN_EBITDA ∨ MAX_EBITDA < e) :
    partialStage ho ro eo = sizePartialPolicy ho ro eo := by
  rcases ho with _ | h
  · have h1 : partialStage none ro eo =
        sizeStep3 (sizeStep2 ⟨0, 0, "none"⟩ ro) eo := rfl
    rw [h1, step23_eq_policy ⟨0, 0, "none"⟩ ro eo rfl hr he]
    unfold sizePartialPolicy
    simp only [Option.toList_none, List.map_nil, List.nil_append]
    by_cases hq : (policyAux
        ((ro.toList.map fun v => (v, MIN_REVENUE, MAX_REVENUE, "revenue")) ++
         (eo.toList.map fun v => (v, MIN_EBITDA, MAX_EBITDA, "ebitda")))).stype
        = "none"
    · rw [if_pos hq, policy23_none ro eo hq]
    · rw [if_neg hq]
  · rcases hh h rfl with hlt | hgt
    · have h1 : sizeStep1 (some h) =
          ⟨max 0 (h / MIN_EMPLOYEES * 15), h, "employees"⟩ := by
        simp [sizeStep1, hlt]
      have hp0 : (0:ℚ) ≤ max 0 (h / MIN_EMPLOYEES * 15) := le_max_left _ _
      rcases eq_or_lt_of_le hp0 with heq | hpos
      · have h2 : partialStage (some h) ro eo =
            sizeStep3 (sizeStep2 ⟨0, h, "employees"⟩ ro) eo := by
          unfold partialStage
          rw [h1, ← heq]
        rw [h2, step23_eq_policy ⟨0, h, "employees"⟩ ro eo rfl hr he]
        unfold sizePartialPolicy
        simp [Option.toList_some, List.cons_append, policyAux,
          partialCreditOut, hlt, ← heq]
      · have h2 : partialStage (some h) ro eo =
            ⟨max 0 (h / MIN_EMPLOYEES * 15), h, "employees"⟩ := by
          unfold partialStage
          rw [h1]
          simp [sizeStep2, sizeStep3, ne_of_gt hpos]
        rw [h2]
        unfold sizePartialPolicy
        simp [Option.toList_some, List.cons_append, policyAux,
          partialCreditOut, hlt, hpos]
    · have hnlt : ¬ h < MIN_EMPLOYEES := by
        have : MIN_EMPLOYEES < MAX_EMPLOYEES := by
          norm_num [MIN_EMPLOYEES, MAX_EMPLOYEES]
        push_neg
        linarith
      have h1 : sizeStep1 (some h) =
          ⟨max 0 (15 - (h - MAX_EMPLOYEES) / MAX_EMPLOYEES * 15), h,
            "employees"⟩ := by
        simp [sizeStep1, hnlt, hgt]
      have hp0 : (0:ℚ) ≤ max 0 (15 - (h - MAX_EMPLOYEES) / MAX_EMPLOYEES * 15) :=
        le_max_left _ _
      rcases eq_or_lt_of_le hp0 with heq | hpos
      · have h2 : partialStage (some h) ro eo =
            sizeStep3 (sizeStep2 ⟨0, h, "employees"⟩ ro) eo := by
          unfold partialStage
          rw [h1, ← heq]
        rw [h2, step23_eq_policy ⟨0, h, "employees"⟩ ro eo rfl hr he]
        unfold sizePartialPolicy
        simp [Option.toList_some, List.cons_append, policyAux,
          partialCreditOut, hnlt, hgt, ← heq]
      · have h2 : partialStage (some h) ro eo =
            ⟨max 0 (15 - (h - MAX_EMPLOYEES) / MAX_EMPLOYEES * 15), h,
              "employees"⟩ := by
          unfold partialStage
          rw [h1]
          simp [sizeStep2, sizeStep3, ne_of_gt hpos]
        rw [h2]
        unfold sizePartialPolicy
        simp [Option.toList_some, List.cons_append, policyAux,
          partialCreditOut, hnlt, hgt, hpos]

theorem truthy_eq_some {o : Option ℚ} {x : ℚ} (h : truthy o = some x) : x ≠ 0 := by
  rcases o with _ | v
  · simp [truthy] at h
  · by_cases hv : v = 0
    · simp [truthy, hv] at h
    · simp [truthy, hv] at h
      rw [← h]
      exact hv

theorem headcountOf_ne_zero {c : Company} {h : ℚ}
    (hh : headcountOf c = some h) : h ≠ 0 := by
  unfold headcountOf at hh
  rcases he : truthy c.financials.employees with _ | v
  · rw [he] at hh
    exact truthy_eq_some hh
  · rw [he] at hh
    obtain rfl : v = h := by simpa using hh
    exact truthy_eq_some he

theorem outOfBand_headcount {c : Company}
    (h1 : fullBand (headcountOf c) MIN_EMPLOYEES MAX_EMPLOYEES = none) :
    ∀ h, headcountOf c = some h → h < MIN_EMPLOYEES ∨ MAX_EMPLOYEES < h := by
  intro h hh
  by_contra hcon
  push_neg at hcon
  obtain ⟨hl, hr⟩ := hcon
  have hne : h ≠ 0 := headcountOf_ne_zero hh
  rw [fullBand, hh, truthy_some_of_ne hne] at h1
  simp only [if_pos (And.intro hl hr)] at h1
  exact Option.some_ne_none h h1

theorem outOfBand_of_fullBand_none {o : Option ℚ} {lo hi : ℚ}
    (h1 : fullBand o lo hi = none) :
    ∀ v, truthy o = some v → v < lo ∨ hi < v := by
  intro v hv
  by_contra hcon
  push_neg at hcon
  obtain ⟨hl, hr⟩ := hcon
  rw [fullBand, hv] at h1
  simp only [if_pos (And.intro hl hr)] at h1
  exact Option.some_ne_none v h1

/-- C3 counterexample: 100 employees (above the band, partial credit 0),
no revenue, no EBITDA — the factor nevertheless reports dimension
`employees`, so a dimension whose partial-credit formula yields zero is
reported, contrary to the claim. -/
theorem c3_counterexample_zero_partial_tagged :
    (sizeFactor companyEmp100).stype = "employees" ∧
    (sizeFactor companyEmp100).score = 0 := by
  have hval : sizeFactor companyEmp100 = ⟨0, 100, "employees"⟩ := by
    norm_num [sizeFactor, companyEmp100, baseCompany, headcountOf, truthy,
      fullBand, partialStage, sizeStep1, sizeStep2, sizeStep3,
      MIN_EMPLOYEES, MAX_EMPLOYEES, MIN_REVENUE, MAX_REVENUE,
      MIN_EBITDA, MAX_EBITDA, max_def]
  rw [hval]
  exact ⟨rfl, rfl⟩

/-- C3 (amended): the three full-credit bands are checked in priority
order employees → revenue → EBITDA, the first fully satisfied band gives
exactly 25 points tagged with that dimension (in particular exactly 20
employees always yields 25 tagged `employees`); when no band is fully
satisfied, the cascade reports the first dimension in the same order
whose clamped partial-credit formula is positive, and when every
available dimension's partial credit is zero it reports the last
available dimension with 0 points (`sizePartialPolicy`). -/
theorem c3_size_bands_and_partial_policy :
    (∀ (c : Company) (h : ℚ), headcountOf c = some h →
      MIN_EMPLOYEES ≤ h → h ≤ MAX_EMPLOYEES →
      sizeFactor c = ⟨25, h, "employees"⟩) ∧
    (∀ (c : Company) (r : ℚ),
      fullBand (headcountOf c) MIN_EMPLOYEES MAX_EMPLOYEES = none →
      truthy c.financials.revenue = some r →
      MIN_REVENUE ≤ r → r ≤ MAX_REVENUE →
      sizeFactor c = ⟨25, r, "revenue"⟩) ∧
    (∀ (c : Company) (e : ℚ),
      fullBand (headcountOf c) MIN_EMPLOYEES MAX_EMPLOYEES = none →
      fullBand c.financials.revenue MIN_REVENUE MAX_REVENUE = none →
      truthy c.financials.ebitda = some e →
      MIN_EBITDA ≤ e → e ≤ MAX_EBITDA →
      sizeFactor c = ⟨25, e, "ebitda"⟩) ∧
    (∀ c : Company, headcountOf c = some 20 →
      sizeFactor c = ⟨25, 20, "employees"⟩) ∧
    (∀ c : Company,
      fullBand (headcountOf c) MIN_EMPLOYEES MAX_EMPLOYEES = none →
      fullBand c.financials.revenue MIN_REVENUE MAX_REVENUE = none →
      fullBand c.financials.ebitda MIN_EBITDA MAX_EBITDA = none →
      sizeFactor c = sizePartialPolicy (headcountOf c)
        (truthy c.financials.revenue) (truthy c.financials.ebitda)) := by
  have hemp : ∀ (c : Company) (h : ℚ), headcountOf c = some h →
      MIN_EMPLOYEES ≤ h → h ≤ MAX_EMPLOYEES →
      sizeFactor c = ⟨25, h, "employees"⟩ := by
    intro c h hh hl hr
    have hne : h ≠ 0 := headcountOf_ne_zero hh
    have hfb : fullBand (headcountOf c) MIN_EMPLOYEES MAX_EMPLOYEES = some h := by
      rw [fullBand, hh, truthy_some_of_ne hne]
      simp [hl, hr]
    unfold sizeFactor
    rw [hfb]
  refine ⟨hemp, ?_, ?_, ?_, ?_⟩
  · intro c r h1 hrr hl hr
    have hfb : fullBand c.financials.revenue MIN_REVENUE MAX_REVENUE = some r := by
      rw [fullBand, hrr]
      simp [hl, hr]
    unfold sizeFactor
    rw [h1, hfb]
  · intro c e h1 h2 hee hl hr
    have hfb : fullBand c.financials.ebitda MIN_EBITDA MAX_EBITDA = some e := by
      rw [fullBand, hee]
      simp [hl, hr]
    unfold sizeFactor
    rw [h1, h2, hfb]
  · intro c hh
    exact hemp c 20 hh (by norm_num [MIN_EMPLOYEES]) (by norm_num [MAX_EMPLOYEES])
  · intro c h1 h2 h3
    have hs : sizeFactor c = partialStage (headcountOf c)
        (truthy c.financials.revenue) (truthy c.financials.ebitda) := by
      unfold sizeFactor
      rw [h1, h2, h3]
    rw [hs]
    exact partialStage_eq_policy _ _ _ (outOfBand_headcount h1)
      (outOfBand_of_fullBand_none h2) (outOfBand_of_fullBand_none h3)

/-- C3 witness: the 20-employee leg at a concrete record. -/
theorem c3_size_witness : sizeFactor companyEmp20 = ⟨25, 20, "employees"⟩ :=
  c3_size_bands_and_partial_policy.2.2.2.1 companyEmp20 rfl

/-! ### C6: thesis criterion 5 vs the scorer's full-credit bands -/

theorem emp_range_iff (c : Company) :
    employeesInRange c = true ↔
      (fullBand (headcountOf c) MIN_EMPLOYEES MAX_EMPLOYEES).isSome = true := by
  rcases hh : headcountOf c with _ | h
  · simp only [employeesInRange, thesisEmployees, hh, fullBand, truthy,
      Option.getD_none, Option.isSome_none]
    norm_num [MIN_EMPLOYEES]
  · have hne := headcountOf_ne_zero hh
    by_cases hb : MIN_EMPLOYEES ≤ h ∧ h ≤ MAX_EMPLOYEES <;>
      simp [employeesInRange, thesisEmployees, hh, fullBand,
        truthy_some_of_ne hne, hb]

theorem rev_range_iff (c : Company) :
    revenueInRange c = true ↔
      (fullBand c.financials.revenue MIN_REVENUE MAX_REVENUE).isSome = true := by
  rcases hv : truthy c.financials.revenue with _ | r
  · simp only [revenueInRange, thesisRevenue, hv, fullBand,
      Option.getD_none, Option.isSome_none]
    norm_num [MIN_REVENUE]
  · by_cases hb : MIN_REVENUE ≤ r ∧ r ≤ MAX_REVENUE <;>
      simp [revenueInRange, thesisRevenue, hv, fullBand, hb]

theorem eb_range_iff (c : Company)
    (hfb : truthy c.financials.ebitda ≠ none ∨
      truthy c.financials.profit = none) :
    ebitdaInRange c = true ↔
      (fullBand c.financials.ebitda MIN_EBITDA MAX_EBITDA).isSome = true := by
  rcases hv : truthy c.financials.ebitda with _ | e
  · rcases hfb with hfb | hfb
    · exact absurd hv hfb
    · simp only [ebitdaInRange, thesisEbitda, hv, hfb, fullBand,
        Option.getD_none, Option.isSome_none]
      norm_num [MIN_EBITDA]
  · by_cases hb : MIN_EBITDA ≤ e ∧ e ≤ MAX_EBITDA <;>
      simp [ebitdaInRange, thesisEbitda, hv, fullBand, hb]

/-- C6 counterexample: profit £700k with EBITDA absent. Criterion 5
passes (its EBITDA input falls back to `financials.profit`) with data
present, yet none of the scorer's three full-credit bands is satisfied —
the two size tests do not read the same fields. -/
theorem c6_counterexample_profit_fallback :
    sizeProfileMetOrNoData companyProfit700k = true ∧
    hasAnyData companyProfit700k = true ∧
    fullBand (headcountOf companyProfit700k) MIN_EMPLOYEES MAX_EMPLOYEES
      = none ∧
    fullBand companyProfit700k.financials.revenue MIN_REVENUE MAX_REVENUE
      = none ∧
    fullBand companyProfit700k.financials.ebitda MIN_EBITDA MAX_EBITDA
      = none ∧
    (sizeFactor companyProfit700k).score = 0 := by
  refine ⟨?_, ?_, rfl, rfl, rfl, rfl⟩
  · rfl
  · rfl

/-- C6 (amended): criterion 5 tests the same three inclusive bands as
the scorer on the same fields **except** that its EBITDA input falls
back to `financials.profit` when EBITDA is absent or zero; whenever that
fallback is not engaged (EBITDA truthy, or profit also absent/zero) the
two band tests coincide, and a record with no size data passes the
criterion by default. -/
theorem c6_criterion5_bands_with_profit_fallback (c : Company)
    (hfb : truthy c.financials.ebitda ≠ none ∨
      truthy c.financials.profit = none) :
    (sizeProfileMet c =
      ((fullBand (headcountOf c) MIN_EMPLOYEES MAX_EMPLOYEES).isSome ||
       (fullBand c.financials.revenue MIN_REVENUE MAX_REVENUE).isSome ||
       (fullBand c.financials.ebitda MIN_EBITDA MAX_EBITDA).isSome)) ∧
    (sizeProfileMetOrNoData c = (sizeProfileMet c || !hasAnyData c)) ∧
    (hasAnyData c = false → sizeProfileMetOrNoData c = true) := by
  refine ⟨?_, rfl, ?_⟩
  · have he := eb_range_iff c hfb
    have hr := rev_range_iff c
    have hm := emp_range_iff c
    cases hA : ebitdaInRange c <;> cases hB : revenueInRange c <;>
      cases hC : employeesInRange c <;>
      simp_all [sizeProfileMet]
  · intro h
    simp [sizeProfileMetOrNoData, h]

/-- C6 witness: with EBITDA actually present (£700k) the criterion-5
test and the scorer's band test agree. -/
theorem c6_bands_witness :
    sizeProfileMet companyEbitda700k =
      ((fullBand (headcountOf companyEbitda700k) MIN_EMPLOYEES
          MAX_EMPLOYEES).isSome ||
       (fullBand companyEbitda700k.financials.revenue MIN_REVENUE
          MAX_REVENUE).isSome ||
       (fullBand companyEbitda700k.financials.ebitda MIN_EBITDA
          MAX_EBITDA).isSome) :=
  (c6_criterion5_bands_with_profit_fallback companyEbitda700k
    (Or.inl (by decide))).1

/-- C4: with at least 4 negative-context matches the penalty is exactly
0.3, and when every category other than the MSP-keyword one contributes
0, the confidence can never be `high` (the penalised keyword score is at
most 9, below the 30-point high gate, even though the pre-penalty
contribution is capped at 30). -/
theorem c4_negative_context_caps_confidence (c : Company)
    (h4 : 4 ≤ (foundNegativeKeywords c).length) :
    contextPenalty c = 3/10 ∧
    (serviceScore c = 0 → techScore c = 0 → descriptionScore c = 0 →
      sicBonus c = 0 → (analyzeMSPLikelihood c).confidence ≠ "high") := by
  have hpos : 0 < (foundNegativeKeywords c).length := by omega
  have hcast : (4:ℚ) ≤ ((foundNegativeKeywords c).length : ℚ) := by
    exact_mod_cast h4
  have hpen : contextPenalty c = 3/10 := by
    unfold contextPenalty
    rw [if_pos hpos]
    apply max_eq_left
    linarith
  refine ⟨hpen, ?_⟩
  intro h1 h2 h3 hsic
  have hkw : mspKeywordScore c ≤ 9 := by
    unfold mspKeywordScore
    rw [hpen]
    have hmin : min 30 (((foundMspKeywords c).length : ℚ)
        / (mspKeywords.length : ℚ) * 30) ≤ 30 := min_le_left _ _
    have := mul_le_mul_of_nonneg_right hmin (by norm_num : (0:ℚ) ≤ 3/10)
    linarith
  have hraw : mspRawScore c < 30 := by
    unfold mspRawScore
    rw [h1, h2, h3, hsic]
    linarith
  show mspConfidence c ≠ "high"
  unfold mspConfidence
  rw [if_neg (by linarith : ¬ (30:ℚ) ≤ mspRawScore c)]
  split_ifs <;> simp

/-- C4 witness: a description holding four negative phrases, everything
else empty. -/
theorem c4_negative_context_witness :
    contextPenalty companyNeg4 = 3/10 ∧
    (analyzeMSPLikelihood companyNeg4).confidence ≠ "high" := by
  have hmain := c4_negative_context_caps_confidence companyNeg4 (by decide)
  refine ⟨hmain.1, hmain.2 ?_ ?_ ?_ ?_⟩
  · norm_num [serviceScore, foundServices, companyNeg4, baseCompany, min_def]
  · norm_num [techScore, foundInfraTech, companyNeg4, baseCompany, min_def]
  · have hdm : descriptionMatches companyNeg4 = 0 := by decide
    norm_num [descriptionScore, hdm, mspDescriptionPatterns, min_def]
  · have hsic : hasItSic companyNeg4 = false := by decide
    simp [sicBonus, hsic]

/-- C5 counterexample: enrichment is fully empty but a target SIC code
is present — the classifier returns score 10 (not 0) and the SIC
indicator has `found = true`. -/
theorem c5_counterexample_sic_scores :
    (analyzeMSPLikelihood companySic).score = 10 ∧
    (analyzeMSPLikelihood companySic).indicators.any MSPIndicator.found
      = true := by
  constructor
  · have hneg : foundNegativeKeywords companySic = [] := by decide
    have hmsp : foundMspKeywords companySic = [] := by decide
    have hdm : descriptionMatches companySic = 0 := by decide
    have hsic : hasItSic companySic = true := by decide
    have hsvc : companySic.enrichment.services = [] := rfl
    have hts2 : companySic.enrichment.tech_stack = [] := rfl
    have hraw : mspRawScore companySic = 10 := by
      norm_num [mspRawScore, mspKeywordScore, serviceScore, techScore,
        descriptionScore, sicBonus, contextPenalty, foundServices,
        foundInfraTech, hneg, hmsp, hdm, hsic, hsvc, hts2, min_def]
    have hfl : (⌊(10:ℚ) + 1/2⌋ : ℤ) = 10 :=
      Int.floor_eq_iff.mpr (by constructor <;> norm_num)
    show jsRound (mspRawScore companySic) = 10
    rw [hraw, jsRound_eq_floor]
    exact hfl
  · decide

/-- C5 (amended): score 0, confidence `low` and all-indicators-false
hold for empty enrichment **provided additionally** that the corpus —
which includes the company name — matches no negative or MSP vocabulary
phrase and no SIC code contains a target code (the source feeds the
company name and the SIC codes into the classifier even when enrichment
is empty). -/
theorem c5_empty_enrichment_amended (c : Company)
    (hkw : c.enrichment.business_keywords = [])
    (hsv : c.enrichment.services = [])
    (hts : c.enrichment.tech_stack = [])
    (hd : c.enrichment.business_description = "")
    (hname : ∀ k ∈ negativeKeywords ++ mspKeywords,
      substrB (lowerStr k) (allText c) = false)
    (hsic : ∀ code ∈ c.sic_codes,
      substrB "62020" code = false ∧ substrB "62090" code = false) :
    (analyzeMSPLikelihood c).score = 0 ∧
    (analyzeMSPLikelihood c).confidence = "low" ∧
    ∀ i ∈ (analyzeMSPLikelihood c).indicators, i.found = false := by
  have hneg : foundNegativeKeywords c = [] := by
    apply List.filter_eq_nil.mpr
    intro k hk
    simp [hname k (List.mem_append_left _ hk)]
  have hmspk : foundMspKeywords c = [] := by
    apply List.filter_eq_nil.mpr
    intro k hk
    simp [hname k (List.mem_append_right _ hk)]
  have hfs : foundServices c = [] := by simp [foundServices, hsv]
  have hft : foundInfraTech c = [] := by simp [foundInfraTech, hts]
  have hdm : descriptionMatches c = 0 := by
    unfold descriptionMatches
    rw [hd]
    decide
  have hsicF : hasItSic c = false := by
    unfold hasItSic
    simp only [List.any_eq_false]
    intro code hc
    obtain ⟨h1, h2⟩ := hsic code hc
    simp [h1, h2]
  have hpen : contextPenalty c = 1 := by simp [contextPenalty, hneg]
  have hkwS : mspKeywordScore c = 0 := by
    norm_num [mspKeywordScore, hmspk, hpen, min_def, mspKeywords]
  have hsvS : serviceScore c = 0 := by
    norm_num [serviceScore, hfs, hsv, min_def]
  have htS : techScore c = 0 := by
    norm_num [techScore, hft, hts, min_def]
  have hdS : descriptionScore c = 0 := by
    norm_num [descriptionScore, hdm, min_def, mspDescriptionPatterns]
  have hbS : sicBonus c = 0 := by simp [sicBonus, hsicF]
  have hraw : mspRawScore c = 0 := by
    unfold mspRawScore
    rw [hkwS, hsvS, htS, hdS, hbS]
    ring
  have hspec : isSpecializedMSP c = false := by simp [isSpecializedMSP, hfs]
  refine ⟨?_, ?_, ?_⟩
  · show jsRound (mspRawScore c) = 0
    rw [hraw, jsRound_eq_floor]
    exact Int.floor_eq_iff.mpr (by constructor <;> norm_num)
  · show mspConfidence c = "low"
    unfold mspConfidence
    rw [hraw]
    rw [if_neg (by norm_num), if_neg]
    rintro ⟨h15, _⟩
    norm_num at h15
  · intro i hi
    simp only [analyzeMSPLikelihood, hneg, hmspk, hfs, hft, hdm, hsicF, hspec,
      List.length_nil, List.mem_cons, List.not_mem_nil, or_false] at hi
    rcases hi with h|h|h|h|h|h|h <;> subst h <;> simp

/-- C5 witness: the amended theorem at a concrete record with empty
enrichment, non-matching name and no SIC codes. -/
theorem c5_empty_witness :
    (analyzeMSPLikelihood baseCompany).score = 0 ∧
    (analyzeMSPLikelihood baseCompany).confidence = "low" ∧
    (analyzeMSPLikelihood baseCompany).indicators.any MSPIndicator.found
      = false := by
  have h := c5_empty_enrichment_amended baseCompany rfl rfl rfl rfl
    (by decide) (by decide)
  exact ⟨h.1, h.2.1,
    List.any_eq_false.mpr (fun i hi => by simp [h.2.2 i hi])⟩

/-! ### C8: 3-year CAGR emission -/

theorem insertDesc_length (x : AnnualFinancialData)
    (l : List AnnualFinancialData) :
    (insertDesc x l).length = l.length + 1 := by
  induction l with
  | nil => rfl
  | cons y ys ih =>
    unfold insertDesc
    split_ifs <;> simp [ih]

theorem sortDesc_length (l : List AnnualFinancialData) :
    (sortDesc l).length = l.length := by
  induction l with
  | nil => rfl
  | cons x xs ih =>
    show (insertDesc x (sortDesc xs)).length = xs.length + 1
    rw [insertDesc_length, ih]

/-- C8 counterexample: three records whose latest profit is 100 and
whose third-back profit is −100 (nonzero but not positive). The CAGR
guard (truthiness of both endpoints) passes, and the emitted value is
`Math.pow(−1, 1/3) − 1`, which is NaN — the claim's positivity condition
and NaN-freedom both fail. -/
theorem c8_counterexample_negative_profit_nan :
    (calculateTrends trendRecsNegProfit).profit_growth_3y_cagr
      = some CagrVal.nanVal ∧
    trendRecsNegProfit.length = 3 := by
  constructor
  · have hs : sortDesc trendRecsNegProfit =
        [mkAFD 3 none (some 100), mkAFD 2 none none,
         mkAFD 1 none (some (-100))] := rfl
    show (if trendRecsNegProfit.length < 1 then emptyTrends
      else _).profit_growth_3y_cagr = _
    rw [if_neg (by norm_num [trendRecsNegProfit])]
    simp only [hs, mkAFD]
    norm_num [cagrField, truthy, mkCagr]
  · rfl

/-- C8 (amended): for a list sorting to at least 3 records, the CAGR
field for revenue (resp. profit) is emitted exactly when the latest and
the third record's value are both present **and nonzero** (truthy); the
emitted value represents `((latest/earlier)^(1/3) − 1) × 100` and is NaN
exactly when the two endpoints have opposite signs (ratio < 0) — never
Infinity, the divisor being nonzero. A negative earlier endpoint emits
NaN rather than being omitted. -/
theorem c8_cagr_guard_truthiness (l : List AnnualFinancialData)
    (a b c : AnnualFinancialData) (r : List AnnualFinancialData)
    (hs : sortDesc l = a :: b :: c :: r) :
    ((calculateTrends l).revenue_growth_3y_cagr
      = cagrField a.revenue c.revenue) ∧
    ((calculateTrends l).profit_growth_3y_cagr
      = cagrField a.profit_after_tax c.profit_after_tax) ∧
    (∀ lv ev : Option ℚ, (cagrField lv ev).isSome = true
      ↔ ((truthy lv).isSome = true ∧ (truthy ev).isSome = true)) ∧
    (∀ x y : ℚ, x ≠ 0 → y ≠ 0 →
      cagrField (some x) (some y) = some (mkCagr x y) ∧
      (mkCagr x y = CagrVal.nanVal ↔ x / y < 0)) := by
  have hlen : ¬ l.length < 1 := by
    have hl := sortDesc_length l
    rw [hs] at hl
    simp only [List.length_cons] at hl
    omega
  refine ⟨?_, ?_, ?_, ?_⟩
  · show (if l.length < 1 then emptyTrends else _).revenue_growth_3y_cagr = _
    rw [if_neg hlen]
    simp only [hs]
  · show (if l.length < 1 then emptyTrends else _).profit_growth_3y_cagr = _
    rw [if_neg hlen]
    simp only [hs]
  · intro lv ev
    rcases htv : truthy lv with _ | x <;> rcases hte : truthy ev with _ | y <;>
      simp [cagrField, htv, hte]
  · intro x y hx hy
    constructor
    · simp [cagrField, truthy, hx, hy]
    · unfold mkCagr
      split_ifs with hc <;> simp [hc]

/-- C8 witness: revenues 121, 110, 100 in descending period order emit a
finite (non-NaN) CAGR representing ratio 121/100. -/
theorem c8_cagr_witness :
    (calculateTrends trendRecsPos).revenue_growth_3y_cagr
      = some (mkCagr 121 100) ∧
    ¬ (mkCagr (121:ℚ) 100 = CagrVal.nanVal) := by
  have h := c8_cagr_guard_truthiness trendRecsPos (mkAFD 3 (some 121) none)
    (mkAFD 2 (some 110) none) (mkAFD 1 (some 100) none) [] rfl
  have h4 := h.2.2.2 121 100 (by norm_num) (by norm_num)
  constructor
  · have h1 := h.1
    simp only [mkAFD] at h1
    rw [h1]
    exact h4.1
  · intro hcon
    have := h4.2.mp hcon
    norm_num at this
